import Mathlib

/-!
Verification of the icon-generation scripts of the MingLog repository.

Two scripts are modelled:

* `apps/tauri-desktop/src-tauri/create_ico.py` — hand-builds a single-image
  ICO byte stream with `struct.pack` and writes it to `icons/icon.ico`.
  Bytes are modelled as `Nat` in `[0, 256)` and `struct.pack` as a fallible
  operation (`Option`), since Python's `struct.pack` raises `struct.error`
  when the number of values differs from the number of format codes or a
  value is out of range for its code.

* `apps/desktop/assets/create-icons.py` — draws PNG icons with PIL and tries
  to export an ICO.  The drawing library and the filesystem are external
  collaborators, so the script is modelled by its observable control flow:
  which messages it prints, which files it saves, and whether an exception
  escapes.  Exception outcomes of the two external operations (the PIL
  import, the ICO save) are supplied as parameters.
-/

/-- A `struct` format code as used by `create_ico.py`: `B` (1 byte),
`H` (2 bytes), `I` (4 bytes), all little-endian under the `<` prefix. -/
inductive FmtCode where
  | B : FmtCode
  | H : FmtCode
  | I : FmtCode
deriving DecidableEq, Repr

/-- Byte width of one format code. -/
def FmtCode.size : FmtCode → Nat
  | .B => 1
  | .H => 2
  | .I => 4

/-- Little-endian encoding of `v` into `n` bytes. -/
def leBytes : Nat → Nat → List Nat
  | 0, _ => []
  | n + 1, v => v % 256 :: leBytes n (v / 256)

/-- Little-endian decoding of a byte list. -/
def leDecode : List Nat → Nat
  | [] => 0
  | b :: bs => b + 256 * leDecode bs

/-- Pack one unsigned value under one format code; `none` models the
`struct.error` Python raises when the value is out of range. -/
def packOne (c : FmtCode) (v : Nat) : Option (List Nat) :=
  if v < 2 ^ (8 * c.size) then some (leBytes c.size v) else none

/-- Model of Python's `struct.pack` with a little-endian format string:
packs the values in order, failing (as `struct.pack` raises `struct.error`)
when the count of values differs from the count of format codes or a value
is out of range. -/
def structPack : List FmtCode → List Nat → Option (List Nat)
  | [], [] => some []
  | c :: cs, v :: vs => do
    let b ← packOne c v
    let rest ← structPack cs vs
    pure (b ++ rest)
  | _, _ => none

/-- `struct.pack('<HHH', 0, 1, 1)` — the 6-byte ICO file header
(reserved, type, count), from `create_ico.py` line 10. -/
def ico_header : Option (List Nat) :=
  structPack [.H, .H, .H] [0, 1, 1]

/-- `struct.pack('<BBBBHHII', 16, 16, 0, 0, 1, 32, 40 + 16*16*4, 22)` —
the 16-byte ICO directory entry, from `create_ico.py` lines 13-18. -/
def ico_dir : Option (List Nat) :=
  structPack [.B, .B, .B, .B, .H, .H, .I, .I]
    [16, 16, 0, 0, 1, 32, 40 + 16 * 16 * 4, 22]

/-- The format string `'<IIIHHIIIIIII'` of the bitmap-info-header pack,
from `create_ico.py` line 21: twelve codes (ten `I`, two `H`). -/
def bmp_fmt : List FmtCode :=
  [.I, .I, .I, .H, .H, .I, .I, .I, .I, .I, .I, .I]

/-- The eleven values passed to the bitmap-info-header pack, from
`create_ico.py` lines 22-27: size 40, width 16, height 32 (doubled),
planes 1, bit count 32, then six zeroed fields. -/
def bmp_vals : List Nat :=
  [40, 16, 32, 1, 32, 0, 0, 0, 0, 0, 0]

/-- `struct.pack('<IIIHHIIIIIII', 40, 16, 32, 1, 32, 0, 0, 0, 0, 0, 0)` —
the bitmap-info-header pack of `create_ico.py` lines 21-27.  The format
string has twelve codes but only eleven values are supplied, so this pack
fails (Python raises `struct.error`). -/
def bmp_header : Option (List Nat) :=
  structPack bmp_fmt bmp_vals

/-- `b'\x80\x80\xFF\xFF' * (16 * 16)` — the fixed BGRA pixel buffer,
from `create_ico.py` line 30. -/
def pixel_data : List Nat :=
  (List.replicate (16 * 16) [0x80, 0x80, 0xFF, 0xFF]).flatten

/-- `b'\x00' * (16 * 2)` — the AND mask, from `create_ico.py` line 33:
16 rows at 2 bytes per row. -/
def and_mask : List Nat :=
  List.replicate (16 * 2) 0

/-- The byte stream `create_simple_ico` writes to `icons/icon.ico`
(`create_ico.py` lines 7-40): file header, directory entry, bitmap info
header, pixel data, AND mask, in order.  The whole run fails (`none`) when
any pack fails, as the Python function raises there before opening the
output file. -/
def create_simple_ico : Option (List Nat) := do
  let h ← ico_header
  let d ← ico_dir
  let b ← bmp_header
  pure (h ++ d ++ b ++ pixel_data ++ and_mask)

/-- Generalization of `create_simple_ico` with the source's fixed
dimensions, pixel buffer and mask abstracted as parameters `w`, `h`,
`pixel`, `mask`; each pack keeps the source's shape (directory size field
`40 + w*h*4`, info-header height `2*h`, eleven info-header values against
twelve codes).  At the source's constants it equals `create_simple_ico`
(`create_ico_general_at_source`). -/
def create_ico_general (w h : Nat) (pixel mask : List Nat) :
    Option (List Nat) := do
  let hd ← structPack [.H, .H, .H] [0, 1, 1]
  let d ← structPack [.B, .B, .B, .B, .H, .H, .I, .I]
    [w, h, 0, 0, 1, 32, 40 + w * h * 4, 22]
  let b ← structPack bmp_fmt [40, w, 2 * h, 1, 32, 0, 0, 0, 0, 0, 0]
  pure (hd ++ d ++ b ++ pixel ++ mask)

theorem create_ico_general_at_source :
    create_ico_general 16 16 pixel_data and_mask = create_simple_ico := rfl

/-- Outcome of running a piece of Python code: a normal value, or an
uncaught exception carrying its message. -/
inductive PyResult (α : Type) where
  | ok : α → PyResult α
  | exc : String → PyResult α
deriving Repr

/-- The PNG sizes generated by `main` in `create-icons.py` (line 72). -/
def icon_sizes : List Nat := [16, 24, 32, 48, 64, 128, 256, 512]

/-- The PNG files `main` saves before the ICO step: one `icon-{size}.png`
per size, then `icon.png` (`create-icons.py` lines 74-84). -/
def png_file_names : List String :=
  icon_sizes.map (fun s => "icon-" ++ toString s ++ ".png") ++ ["icon.png"]

/-- The success messages printed while saving the PNG files
(`create-icons.py` lines 79 and 84). -/
def png_messages : List String :=
  icon_sizes.map (fun s => "✅ 已生成: icon-" ++ toString s ++ ".png")
    ++ ["✅ 已生成: icon.png"]

/-- The warning `main` prints when the ICO export raises, with the
exception text interpolated (`create-icons.py` line 97). -/
def warning_msg (err : String) : String := "⚠️ ICO 生成失败: " ++ err

/-- The ICO-export block inside `main`'s `try` (`create-icons.py`
lines 87-95).  The PIL `save` call is an external collaborator, so its
outcome is a parameter: when it fails it raises an exception with text
`err`, otherwise the success message is printed. -/
def ico_save (ico_save_fails : Bool) (err : String) : PyResult (List String) :=
  if ico_save_fails then .exc err else .ok ["✅ 已生成: icon.ico"]

/-- Observable outcome of `main` in `create-icons.py`: the PNG files
saved, whether `icon.ico` was written, the messages printed, and whether
the procedure ran to its end. -/
structure MainResult where
  png_files : List String
  ico_written : Bool
  messages : List String
  completed : Bool
deriving Repr

/-- `main` of `create-icons.py` (lines 65-100): prints the start message,
saves the PNG files, then runs the ICO block inside `try`/`except
Exception` — a raised exception is caught, the warning is printed and
execution continues — and finally prints the closing messages. -/
def main_run (ico_save_fails : Bool) (err : String) : MainResult :=
  let start_msgs := ["🎨 生成 MingLog 图标..."]
  let ico_result := ico_save ico_save_fails err
  let ico_msgs :=
    match ico_result with
    | .ok ms => ms
    | .exc e => [warning_msg e]
  let final_msgs := ["\n✨ 图标生成完成！",
    "📝 注意: 这是基础版本的图标，建议使用专业设计工具优化"]
  { png_files := png_file_names
    ico_written := match ico_result with | .ok _ => true | .exc _ => false
    messages := start_msgs ++ png_messages ++ ico_msgs ++ final_msgs
    completed := true }

/-- The messages printed by the `except ImportError` handler of
`create-icons.py` (lines 105-107). -/
def pillow_missing_messages : List String :=
  ["❌ 需要安装 Pillow 库: pip install Pillow", "💡 或者手动创建图标文件"]

/-- The body of the script's top-level `try` (`create-icons.py`
lines 7-103): importing PIL raises `ImportError` when the library is
missing; otherwise the definitions are made and `main` runs. -/
def script_body (pil_available ico_save_fails : Bool) (err : String) :
    PyResult (List String) :=
  if pil_available then .ok (main_run ico_save_fails err).messages
  else .exc "ImportError"

/-- The whole `create-icons.py` script: the top-level `try` with its
`except ImportError` handler (lines 7, 105-107).  An `ImportError` from
the body is caught and the two help messages are printed; any other
uncaught exception would propagate. -/
def script_run (pil_available ico_save_fails : Bool) (err : String) :
    PyResult (List String) :=
  match script_body pil_available ico_save_fails err with
  | .ok ms => .ok ms
  | .exc e => if e = "ImportError" then .ok pillow_missing_messages else .exc e

/-- C1, counterexample: the size field stored in the directory entry
(bytes 8-11, little-endian) decodes to 1064, which is not
`40 + 16*16*4 + and_mask.length = 1096`: the AND-mask length is not
included as the claim states. -/
theorem C1_counterexample :
    (ico_dir.map fun l => leDecode ((l.drop 8).take 4)) = some 1064 ∧
      (1064 : Nat) ≠ 40 + 16 * 16 * 4 + and_mask.length := by
  decide

/-- C1, amended: the directory entry's stored byte-size field equals
`40 + W*H*4` for the encoder's fixed `W = H = 16` — the 40-byte info
header plus the pixel data only, without the AND-mask length. -/
theorem C1_amended_size_field :
    (ico_dir.map fun l => leDecode ((l.drop 8).take 4))
      = some (40 + 16 * 16 * 4) := by
  decide

/-- C2, counterexample: the AND-mask block is 32 bytes, not the 64 bytes
the claim derives from 4-byte row padding — the code pads each of the 16
rows to 2 bytes. -/
theorem C2_counterexample :
    and_mask.length = 32 ∧ and_mask.length ≠ 64 := by
  decide

/-- C2, amended: the AND-mask block consists of `H = 16` rows, each row
2 bytes (16 one-bit pixels padded to a 2-byte boundary), all zero, so its
length is `16 * 2 = 32` bytes. -/
theorem C2_amended_mask :
    and_mask.length = 16 * 2 ∧ and_mask.all (fun b => b == 0) = true := by
  decide

set_option maxRecDepth 100000 in
/-- C3, counterexample: the encoder emits nothing at all — the
bitmap-info-header pack fails, so `create_simple_ico` produces no byte
sequence — and even the total length of the five blocks the source
constructs is `6 + 16 + 40 + 1024 + 32 = 1118`, not 1150. -/
theorem C3_counterexample :
    create_simple_ico = none ∧
      6 + 16 + 40 + pixel_data.length + and_mask.length ≠ 1150 := by
  decide

set_option maxRecDepth 100000 in
/-- C3, amended: on the fixed input `W = H = 16` with the repeated
`0x80 0x80 0xFF 0xFF` buffer, the info-header pack fails (twelve format
codes, eleven values), so the encoder raises and emits no bytes; had that
pack produced its 40 header bytes, the blocks written would total
`6 + 16 + 40 + 1024 + 32 = 1118` bytes. -/
theorem C3_amended_run :
    create_simple_ico = none ∧ bmp_header = none ∧
      6 + 16 + 40 + pixel_data.length + and_mask.length = 1118 := by
  decide

/-- C4, counterexample: the height value passed for the bitmap-info
header (third packed value) is 32, not the plain image height 16. -/
theorem C4_counterexample :
    bmp_vals[2]? = some 32 ∧ (32 : Nat) ≠ 16 := by
  decide

/-- C4, amended: the bitmap-info header's height value is the
ICO-convention doubled value `2 * H = 32` for the fixed 16-pixel-high
image, not the plain height. -/
theorem C4_amended_height :
    bmp_vals[2]? = some (2 * 16) := by
  decide

/-- C5: the 6-byte ICO file header does pack to `{0, 0, 1, 0, 1, 0}`
(reserved 0, type 1, count 1, little-endian), but the encoder never emits
it: the run fails at the info-header pack before the output file is
opened, so no byte sequence is emitted. -/
theorem C5_header_bytes_but_no_output :
    ico_header = some [0, 0, 1, 0, 1, 0] ∧ create_simple_ico = none := by
  decide

/-- C6: the directory entry's stored offset field (bytes 12-15,
little-endian) decodes to `6 + 16 = 22`, the length of the 6-byte file
header plus the 16-byte directory entry. -/
theorem C6_offset_field :
    (ico_dir.map fun l => leDecode ((l.drop 12).take 4)) = some (6 + 16) ∧
      ico_header.map List.length = some 6 ∧
      ico_dir.map List.length = some 16 := by
  decide

/-- C7: the encoder is a pure function of its input — two runs on the
same width, height, pixel buffer and mask produce the same result. -/
theorem C7_deterministic :
    ∀ (w h : Nat) (pixel mask : List Nat),
      create_ico_general w h pixel mask = create_ico_general w h pixel mask :=
  fun _ _ _ _ => rfl

/-- C8: when PIL is missing, the script's body raises `ImportError`, the
top-level handler catches it and prints the two help messages, and no
exception escapes — whatever the ICO-save outcome parameters are. -/
theorem C8_import_error_handled :
    ∀ (ico_save_fails : Bool) (err : String),
      script_run false ico_save_fails err = .ok pillow_missing_messages ∧
        pillow_missing_messages.length = 2 :=
  fun _ _ => ⟨rfl, rfl⟩

/-- C9: whatever exception the ICO export raises, `main` catches it:
it runs to completion, prints the interpolated warning, writes no
`icon.ico`, and the PNG files saved are exactly those of a run where the
export succeeds. -/
theorem C9_ico_failure_contained :
    ∀ err : String,
      (main_run true err).completed = true ∧
        (main_run true err).png_files = (main_run false err).png_files ∧
        warning_msg err ∈ (main_run true err).messages ∧
        (main_run true err).ico_written = false := by
  intro err
  refine ⟨rfl, rfl, ?_, rfl⟩
  simp [main_run, ico_save]

set_option maxRecDepth 100000 in
/-- C10: the five blocks the source constructs would total
`6 + 16 + 40 + 1024 + 32 = 1118` bytes and its AND mask is all zero, but
no invocation emits them: the info-header pack fails, so
`create_simple_ico` produces no bytes. -/
theorem C10_blocks_but_no_output :
    create_simple_ico = none ∧
      and_mask.all (fun b => b == 0) = true ∧
      6 + 16 + 40 + pixel_data.length + and_mask.length = 1118 := by
  decide
